import Mathlib

/-!
Verification development for the luddite.v2 request-dispatch core.

The Go sources under scrutiny are shallowly embedded below: pure helpers
become Lean functions, the per-request mutable state (response writer,
handler details) becomes explicit state passing, and machine integers are
modelled as `Int` with explicit 64-bit saturation where the Go standard
library saturates. Definitions follow the source files; code of the
repository that is not part of the provided sources (the response writer,
`WriteResponse`, the error payload type, content-type constants, the
external negotiation library) is modelled from the specification and is
marked as such in its doc comment.
-/

set_option autoImplicit false

namespace Luddite

/-! ## Header names (header.go) -/

def HeaderAccept : String := "Accept"
def HeaderContentType : String := "Content-Type"
def HeaderRequestId : String := "X-Request-Id"
def HeaderSessionId : String := "X-Session-Id"
def HeaderSpirentApiVersion : String := "X-Spirent-Api-Version"
def HeaderSpirentInhibitResponse : String := "X-Spirent-Inhibit-Response"
def HeaderSpirentPageSize : String := "X-Spirent-Page-Size"
def HeaderForwardedFor : String := "X-Forwarded-For"

/-- Modelled from the spec: the repository's content-type constants are
declared in a source file that was not provided; the values are the
standard MIME type strings the spec's examples use (json, xml, etc.). -/
def ContentTypeJson : String := "application/json"

def ContentTypeCss : String := "text/css"
def ContentTypePlain : String := "text/plain"
def ContentTypeXml : String := "application/xml"
def ContentTypeHtml : String := "text/html"
def ContentTypeGif : String := "image/gif"
def ContentTypePng : String := "image/png"
def ContentTypeOctetStream : String := "application/octet-stream"
def ContentTypeCsv : String := "text/csv"

/-! ## HTTP headers as association lists

Go's `http.Header` maps a key to a list of values; `Get` returns the first
value for the key (or "" when absent), `Set` replaces all values with one,
and `Add` appends a value. With headers as a `List (String × String)` in
insertion order, first-match lookup, filtering and appending model the
three operations. All accesses in the embedded code use identical literal
keys, so Go's key canonicalization is the identity here. -/

abbrev Headers : Type := List (String × String)

def getHeader (hs : Headers) (k : String) : String :=
  match hs with
  | [] => ""
  | (k', v) :: rest => if k' = k then v else getHeader rest k

def setHeader (hs : Headers) (k v : String) : Headers :=
  (k, v) :: List.filter (fun p => p.1 ≠ k) hs

def addHeader (hs : Headers) (k v : String) : Headers :=
  hs ++ [(k, v)]

def hasHeader (hs : Headers) (k : String) : Bool :=
  List.any hs (fun p => p.1 = k)

/-! ## Go decimal parsing (strconv)

`strconv.ParseInt(s, 10, 64)` accepts an optional sign followed by one or
more ASCII digits; on a syntax error it returns `0`, on a range error it
returns the saturated 64-bit bound (the error return is what callers
check). `strconv.Atoi(s)` is `ParseInt(s, 10, 0)` with a 64-bit int and
fails (err ≠ nil) on both syntax and range errors. -/

def digitsVal (l : List Char) : Nat :=
  List.foldl (fun acc c => acc * 10 + (c.toNat - 48)) 0 l

def allDigits (l : List Char) : Bool :=
  !List.isEmpty l && List.all l Char.isDigit

/-- Mathematical value of a Go base-10 integer literal: optional sign, then
one or more digits; `none` on any other shape (syntax error). -/
def decimalValue? (s : String) : Option Int :=
  match s.data with
  | '+' :: rest => if allDigits rest then some (digitsVal rest) else none
  | '-' :: rest => if allDigits rest then some (-(digitsVal rest : Int)) else none
  | l => if allDigits l then some (digitsVal l) else none

def maxI64 : Int := 9223372036854775807
def minI64 : Int := -9223372036854775808

/-- Result of `strconv.Atoi` on a 64-bit platform when the caller treats
any error as failure: `some v` iff the string parses and fits in int64. -/
def atoi (s : String) : Option Int :=
  match decimalValue? s with
  | none => none
  | some v => if v < minI64 ∨ maxI64 < v then none else some v

/-- Result of `strconv.ParseInt(s, 10, 64)` when the caller discards the
error: `0` on a syntax error, the saturated bound on a range error,
the value otherwise. -/
def parseInt64 (s : String) : Int :=
  match decimalValue? s with
  | none => 0
  | some v => if maxI64 < v then maxI64 else if v < minI64 then minI64 else v

/-- Go `strings.Split(s, ":")`: split on every colon, keeping empty parts. -/
def splitColon (s : String) : List String :=
  let step := fun (acc : List (List Char) × List Char) (c : Char) =>
    if c = ':' then (acc.1 ++ [acc.2], []) else (acc.1, acc.2 ++ [c])
  let r := List.foldl step ([], []) s.data
  List.map String.mk (r.1 ++ [r.2])

/-! ## Error payloads and the response writer

These types live in repository source files that were not provided; they
are modelled from the spec. -/

/-- Modelled from the spec: the enumerated error codes this core produces
(`EcodeApiVersionInvalid`, `EcodeApiVersionTooOld`, `EcodeApiVersionTooNew`,
`EcodeInternal`). -/
inductive Ecode where
  | apiVersionInvalid
  | apiVersionTooOld
  | apiVersionTooNew
  | internal
  deriving DecidableEq

/-- Modelled from the spec: the structured error payload — an enumerated
code, message-format arguments (here the version bounds the payload
includes), an optional truncated stack trace, and the message text. -/
structure ErrorPayload where
  code : Ecode
  args : List Int := []
  stack : String := ""
  msg : String := ""
  deriving DecidableEq

/-- Modelled from the spec: the pooled response writer wraps the raw
response sink and tracks a boolean "header/body already sent" flag, the
numeric status code and the body; once the flag is set no component may
write again, so every write is guarded by the flag. `writeCount` counts
the writes that actually reached the sink. -/
structure RespState where
  headers : Headers := []
  written : Bool := false
  status : Nat := 0
  body : Option ErrorPayload := none
  writeCount : Nat := 0
  deriving DecidableEq

def initResp : RespState := {}

/-- Modelled from the spec: `rw.WriteHeader(code)` through the response
writer — records the status and sets the sent flag, once. -/
def writeHeaderStatus (st : RespState) (code : Nat) : RespState :=
  if st.written then st
  else { st with written := true, status := code, writeCount := st.writeCount + 1 }

/-- Modelled from the spec: `WriteResponse(rw, status, body)` serializes the
structured body in the negotiated representation and writes the status;
here reduced to recording the status and the structured payload, once. -/
def WriteResponse (st : RespState) (status : Nat) (body : Option ErrorPayload) : RespState :=
  if st.written then st
  else { st with written := true, status := status, body := body, writeCount := st.writeCount + 1 }

/-- Modelled from the spec: the pooled per-request handler details — the
resolved API version (0 until resolved), the request id and a progress
marker. -/
structure HandlerDetails where
  apiVersion : Int := 0
  requestId : String := ""
  progress : String := ""
  deriving DecidableEq

/-! ## Content negotiator (negotiator.go) -/

/-- Modelled from the spec: the external negotiation library's
`NegotiateAccept(accept, alternatives)` implements standard
weighted-preference matching; restricted to the single-media-type accept
values the claims use, it selects the accept value when it is among the
alternatives and reports an error when there is no overlap. -/
def negotiateAccept (accept : String) (alternatives : List String) : Except Unit String :=
  if List.contains alternatives accept then Except.ok accept else Except.error ()

/-- Embedding of `negotiator.ServeHTTP` (negotiator.go lines 19–34): default
an absent Accept header to the first accepted format, negotiate, and on a
negotiation error write an immediate 406; on success set the Content-Type
response header. -/
def negotiatorServeHTTP (acceptedFormats : List String) (req : Headers) (st : RespState) : RespState :=
  let accept0 := getHeader req HeaderAccept
  let accept := if accept0 = "" then List.headD acceptedFormats "" else accept0
  match negotiateAccept accept acceptedFormats with
  | Except.error _ => writeHeaderStatus st 406
  | Except.ok fv => { st with headers := setHeader st.headers HeaderContentType fv }

/-- The service's supported representation set (service.go lines 28–37). -/
def negotiatedContentTypes : List String :=
  [ContentTypeJson, ContentTypeCss, ContentTypePlain, ContentTypeXml,
   ContentTypeHtml, ContentTypeGif, ContentTypePng, ContentTypeOctetStream]

/-! ## Version middleware (version source file) -/

/-- Embedding of `version.ServeHTTP`: default the version to `maxVersion`;
if the version header is present, a parse failure or a value below 1 is an
immediate 400 with an invalid-version payload; then a version below
`minVersion` is a 410 carrying `minVersion`, one above `maxVersion` a 501
carrying `maxVersion`; otherwise the resolved version is added to the
response headers and recorded in the handler details. -/
def versionServeHTTP (minVersion maxVersion : Int) (req : Headers)
    (st : RespState) (d : HandlerDetails) : RespState × HandlerDetails :=
  let s := getHeader req HeaderSpirentApiVersion
  let parsed : Option Int :=
    if s = "" then some maxVersion
    else match atoi s with
      | none => none
      | some i => if i < 1 then none else some i
  match parsed with
  | none => (WriteResponse st 400 (some { code := Ecode.apiVersionInvalid }), d)
  | some v =>
    if v < minVersion then
      (WriteResponse st 410 (some { code := Ecode.apiVersionTooOld, args := [minVersion] }), d)
    else if v > maxVersion then
      (WriteResponse st 501 (some { code := Ecode.apiVersionTooNew, args := [maxVersion] }), d)
    else
      ({ st with headers := addHeader st.headers HeaderSpirentApiVersion (toString v) },
       { d with apiVersion := v })

/-! ## Page-size helper (header.go lines 57–63) -/

/-- Embedding of `RequestPageSize`: the page-size header parsed with
`strconv.Atoi`; any parse failure (including an absent header, whose value
is "") yields `math.MaxInt32`. -/
def RequestPageSize (req : Headers) : Int :=
  match atoi (getHeader req HeaderSpirentPageSize) with
  | some v => v
  | none => 2147483647

/-! ## Service assembly (service.go `NewService` / `AddHandler`) -/

/-- Identity of a middleware entry in the service's handler list: the two
built-ins installed by `NewService`, or a caller-appended handler. -/
inductive MwId where
  | negotiatorMw
  | versionMw
  | userMw (n : Nat)
  deriving DecidableEq

/-- Embedding of `Service.AddHandler`: appends to the handler list
(service.go lines 156–158). -/
def AddHandler (handlers : List MwId) (h : MwId) : List MwId :=
  handlers ++ [h]

/-- Embedding of the default-middleware installation in `NewService`
(service.go lines 121–123): first `AddHandler(newNegotiatorHandler(...))`,
then `AddHandler(newVersionHandler(...))`. -/
def newServiceHandlers : List MwId :=
  AddHandler (AddHandler [] MwId.negotiatorMw) MwId.versionMw

/-- Handler list after the caller appends further middleware with
`AddHandler`, as the service doc requires before `Run`. -/
def serviceHandlers (userHandlers : List Nat) : List MwId :=
  List.foldl (fun hs n => AddHandler hs (MwId.userMw n)) newServiceHandlers userHandlers

/-! ## Middleware chain and routing (service.go `ServeHTTP`, lines 537–556) -/

/-- Per-request state a middleware handler may read and update: the
response writer and the pooled handler details. -/
abbrev ReqState : Type := RespState × HandlerDetails

/-- Middleware handlers are opaque request transformers, like the
`http.Handler` values stored in `Service.handlers`. -/
abbrev Mw : Type := ReqState → ReqState

/-- Embedding of the middleware loop (service.go lines 539–544): run each
handler in order and stop as soon as the response writer reports a write. -/
def runHandlers (hs : List Mw) (sd : ReqState) : ReqState :=
  match hs with
  | [] => sd
  | h :: rest =>
    let sd1 := h sd
    if sd1.1.written then sd1 else runHandlers rest sd1

/-- A router maps request keys (method and path) to handlers; `lookup`
models `httptreemux`'s route match. -/
structure RouterM where
  routes : List (String × (RespState → RespState))

def lookupRoute (r : RouterM) (key : String) : Option (RespState → RespState) :=
  match List.find? (fun p => p.1 = key) r.routes with
  | some p => some p.2
  | none => none

/-- Embedding of `notFoundHandler` (service.go lines 566–568): write a 404
status and nothing else. -/
def notFoundHandler (st : RespState) : RespState :=
  writeHeaderStatus st 404

/-- Embedding of a router's `ServeHTTP` for a router built by `newRouter`
(service.go lines 560–564): serve the matched route, or run the installed
`notFoundHandler` when no route matches. -/
def routerServeHTTP (r : RouterM) (key : String) (st : RespState) : RespState :=
  match lookupRoute r key with
  | some h => h st
  | none => notFoundHandler st

/-- Embedding of the span body of `Service.ServeHTTP` (service.go lines
537–556): run the middleware chain, returning as soon as a handler has
written; otherwise try the global router first and fall back to the API
router selected by the handler details' resolved version. -/
def spanBody (handlers : List Mw) (globalRouter : RouterM) (apiRouters : Int → RouterM)
    (key : String) (sd : ReqState) : ReqState :=
  let sd1 := runHandlers handlers sd
  if sd1.1.written then sd1
  else
    match lookupRoute globalRouter key with
    | some lr => (lr sd1.1, sd1.2)
    | none => (routerServeHTTP (apiRouters sd1.2.apiVersion) key sd1.1, sd1.2)

/-! ## Span finalizer and panic containment (service.go lines 386–400 and 440–557) -/

/-- Value carried by a panic that escapes a downstream handler: the
context-cancelation error or anything else. -/
inductive PanicVal where
  | contextCanceled
  | other (msg : String)
  deriving DecidableEq

def PanicVal.msg : PanicVal → String
  | PanicVal.contextCanceled => "context canceled"
  | PanicVal.other m => m

/-- Outcome of running the traced span's body: normal completion, or a
panic carrying a value, in both cases with the request state reached. -/
inductive BodyOutcome where
  | ok (sd : ReqState)
  | panicked (v : PanicVal) (sd : ReqState)

/-- One structured record emitted to a logger: message, optional stack
field, severity and the access-log data. -/
structure LogEntry where
  msg : String := ""
  stackField : String := ""
  errorLevel : Bool := false
  accessLog : Bool := false
  status : Nat := 0
  deriving DecidableEq

/-- Result of the dispatcher for one request once the span has been
entered: final response state, handler details, emitted log records, and
whether the two pooled objects were returned to their pools. -/
structure DispatchResult where
  resp : RespState
  details : HandlerDetails
  log : List LogEntry
  resPooled : Bool
  dPooled : Bool
  deriving DecidableEq

/-- Go `stack[:n]` truncation on the captured stack string. -/
def truncateStack (s : String) (n : Nat) : String :=
  String.mk (List.take n s.data)

/-- Embedding of the traced part of `Service.ServeHTTP` (service.go lines
440–557) together with the outer deferred pool releases (lines 394–399).
The body (middleware chain plus routing) is an arbitrary function that may
panic; the deferred finalizer recovers the panic: a context-canceled panic
only marks the log status 418, any other panic is logged with the captured
stack and answered through `WriteResponse` with a 500 internal-error
payload (carrying a possibly truncated stack when `debugStacks` is set).
One access-log record is always emitted, at error level exactly when the
final status is a 5xx, and both pooled objects are always released. -/
def serveSpan (debugStacks : Bool) (debugStackSize : Nat) (capturedStack : String)
    (body : ReqState → BodyOutcome) (sd : ReqState) : DispatchResult :=
  let outcome := body sd
  let rcvSd : Option PanicVal × ReqState :=
    match outcome with
    | BodyOutcome.ok sd1 => (none, sd1)
    | BodyOutcome.panicked v sd1 => (some v, sd1)
  let st := rcvSd.2.1
  let afterPanic : RespState × Nat × List LogEntry :=
    match rcvSd.1 with
    | none => (st, st.status, [])
    | some v =>
      if v = PanicVal.contextCanceled then
        (WriteResponse st 418 none, 418, [])
      else
        let resp0 : ErrorPayload := { code := Ecode.internal, msg := v.msg }
        let resp :=
          if debugStacks then
            { resp0 with stack :=
                if debugStackSize < capturedStack.length then truncateStack capturedStack debugStackSize
                else capturedStack }
          else resp0
        (WriteResponse st 500 (some resp), 500,
         [{ msg := v.msg, stackField := capturedStack, errorLevel := true }])
  let status := afterPanic.2.1
  let accessEntry : LogEntry :=
    { msg := "access", errorLevel := decide (status / 100 = 5), accessLog := true, status := status }
  { resp := afterPanic.1
    details := rcvSd.2.2
    log := afterPanic.2.2 ++ [accessEntry]
    resPooled := true
    dPooled := true }

/-! ## Request-id resolution (service.go lines 420–437) -/

/-- Embedding of the header scan: split the inbound correlation header at
colons and, when it has exactly two parts, parse each with
`strconv.ParseInt(..., 10, 64)` discarding the error. -/
def resolveTraceIds (hdr : String) : Int × Int :=
  if hdr = "" then (0, 0)
  else
    match splitColon hdr with
    | [a, b] => (parseInt64 a, parseInt64 b)
    | _ => (0, 0)

/-- Embedding of the reuse-or-generate decision (service.go lines 430–435):
reuse the parsed ids when both came out positive, otherwise use the freshly
generated id. The boolean records whether an existing trace was continued. -/
def resolveRequestId (hdr : String) (freshId : Int) : Int × Bool :=
  let tp := resolveTraceIds hdr
  if 0 < tp.1 ∧ 0 < tp.2 then (tp.1, true) else (freshId, false)

/-- Embedding of the pre-span part of `Service.ServeHTTP` (service.go lines
420–437): resolve the trace id and set the response correlation header to
its decimal string. Runs before the span, hence before any middleware or
routing. -/
def serveHTTPPrelude (req : Headers) (freshId : Int) (st : RespState) :
    RespState × Int × Bool :=
  let hdr := getHeader req HeaderRequestId
  let r := resolveRequestId hdr freshId
  ({ st with headers := setHeader st.headers HeaderRequestId (toString r.1) }, r.1, r.2)

/-- Embedding of the full `Service.ServeHTTP` flow after CORS: the prelude
resolves and echoes the correlation id, then the traced span runs the
middleware chain and routing under the panic-containing finalizer. -/
def serveHTTPFull (debugStacks : Bool) (debugStackSize : Nat) (capturedStack : String)
    (req : Headers) (freshId : Int) (handlers : List Mw) (globalRouter : RouterM)
    (apiRouters : Int → RouterM) (key : String) (st : RespState) (d : HandlerDetails) :
    DispatchResult :=
  let pre := serveHTTPPrelude req freshId st
  serveSpan debugStacks debugStackSize capturedStack
    (fun sd => BodyOutcome.ok (spanBody handlers globalRouter apiRouters key sd))
    (pre.1, d)

/-! ## Serve-loop error mapping (service.go `Service.run`, lines 365–372) -/

/-- Error returned by `http.Serve` over the stoppable listener: the
dedicated stopped condition (`ListenerStoppedError`, declared in the
listener source file, not provided; modelled from the spec as a
distinguishable condition) or any other transport error. -/
inductive ServeError where
  | listenerStopped
  | transport (msg : String)
  deriving DecidableEq

/-- Embedding of the tail of `Service.run` (service.go lines 365–372): a
`ListenerStoppedError` from the serve loop is replaced by nil; any other
error is returned unchanged. -/
def runServeResult (r : Option ServeError) : Option ServeError :=
  match r with
  | some ServeError.listenerStopped => none
  | x => x

/-! ## Helper lemmas -/

theorem getHeader_of_not_hasHeader (hs : Headers) (k : String)
    (h : hasHeader hs k = false) : getHeader hs k = "" := by
  induction hs with
  | nil => rfl
  | cons p rest ih =>
    simp only [hasHeader, List.any_cons, Bool.or_eq_false_iff] at h
    have hk : p.1 ≠ k := by
      intro he
      simp [he] at h
    cases p with
    | mk k' v =>
      simp only [getHeader, if_neg hk]
      exact ih (by simpa [hasHeader] using h.2)

theorem getHeader_addHeader_absent (hs : Headers) (k v : String)
    (h : hasHeader hs k = false) : getHeader (addHeader hs k v) k = v := by
  induction hs with
  | nil => simp [addHeader, getHeader]
  | cons p rest ih =>
    simp only [hasHeader, List.any_cons, Bool.or_eq_false_iff] at h
    have hk : p.1 ≠ k := by
      intro he
      simp [he] at h
    cases p with
    | mk k' w =>
      simp only [addHeader, List.cons_append, getHeader, if_neg hk]
      exact ih (by simpa [hasHeader] using h.2)

/-! ## Claim theorems -/

/-- Claim C1 (code_bug evidence): for a request whose Accept preference
(`text/csv`) has no overlap with the negotiator's supported set, the
Content Negotiator as written does NOT leave the response untouched: it
immediately writes a 406 status (and no Content-Type header), contradicting
the claim, the spec's soft-fail contract and the repository's own
`TestUnsupportedContentType`. -/
theorem negotiator_no_overlap_writes_406 :
    (negotiatorServeHTTP negotiatedContentTypes [(HeaderAccept, ContentTypeCsv)] initResp).written
        = true ∧
    (negotiatorServeHTTP negotiatedContentTypes [(HeaderAccept, ContentTypeCsv)] initResp).status
        = 406 ∧
    hasHeader (negotiatorServeHTTP negotiatedContentTypes [(HeaderAccept, ContentTypeCsv)]
        initResp).headers HeaderContentType = false := by
  decide

/-- Claim C2 (counterexample): in the middleware chain assembled by
`NewService` the Version Resolver is not installed first — with one
caller-appended handler the list is not
`[versionMw, negotiatorMw, userMw 0]` as the claim requires. -/
theorem newService_order_counterexample :
    serviceHandlers [0] ≠ [MwId.versionMw, MwId.negotiatorMw, MwId.userMw 0] := by
  decide

theorem foldl_addHandler (init : List MwId) (l : List Nat) :
    List.foldl (fun hs n => AddHandler hs (MwId.userMw n)) init l
      = init ++ List.map MwId.userMw l := by
  induction l generalizing init with
  | nil => simp
  | cons x xs ih =>
    simp only [List.foldl_cons, List.map_cons]
    rw [ih]
    simp [AddHandler]

/-- Claim C2 (amended): in the middleware chain assembled by `NewService`,
the built-in entries are installed so that the Content Negotiator runs
first and the Version Resolver runs second, before any caller-appended
middleware. -/
theorem newService_handler_order (userHandlers : List Nat) :
    serviceHandlers userHandlers
      = [MwId.negotiatorMw, MwId.versionMw] ++ List.map MwId.userMw userHandlers := by
  rw [serviceHandlers, foldl_addHandler]
  rfl

/-- Claim C9: when the serve loop ends with the dedicated listener-stopped
condition, `Service.run` returns nil (clean shutdown); any other serve
error, and a nil result, are returned unchanged, so the caller can tell
clean shutdown apart from transport failure. -/
theorem run_listenerStopped_clean :
    runServeResult (some ServeError.listenerStopped) = none ∧
    runServeResult none = none ∧
    ∀ msg : String,
      runServeResult (some (ServeError.transport msg)) = some (ServeError.transport msg) :=
  ⟨rfl, rfl, fun _ => rfl⟩

/-- Claim C10: `RequestPageSize` returns the decimal integer value of the
page-size header whenever it parses as an integer (zero and negative
included), and `math.MaxInt32` whenever the header is absent or fails to
parse. -/
theorem requestPageSize_spec (req : Headers) :
    (∀ v : Int, atoi (getHeader req HeaderSpirentPageSize) = some v →
        RequestPageSize req = v) ∧
    (atoi (getHeader req HeaderSpirentPageSize) = none →
        RequestPageSize req = 2147483647) ∧
    (hasHeader req HeaderSpirentPageSize = false →
        RequestPageSize req = 2147483647) := by
  refine ⟨?_, ?_, ?_⟩
  · intro v hv
    simp [RequestPageSize, hv]
  · intro hn
    simp [RequestPageSize, hn]
  · intro habs
    simp [RequestPageSize, getHeader_of_not_hasHeader _ _ habs]
    rfl

/-- Claim C10 witness: a negative page-size header is returned as parsed,
and an absent header means MaxInt32. -/
theorem requestPageSize_spec_witness :
    RequestPageSize [(HeaderSpirentPageSize, "-5")] = -5 ∧
    RequestPageSize ([] : Headers) = 2147483647 :=
  ⟨(requestPageSize_spec [(HeaderSpirentPageSize, "-5")]).1 (-5) (by decide),
   (requestPageSize_spec []).2.1 (by decide)⟩

/-- Claim C4: for every version bound pair and every present version header
value, taking the clauses in order: a value that fails to parse as a
64-bit integer, or parses below 1, is answered 400 with an InvalidVersion
payload; one that parses below `minVersion` is answered 410 with a
VersionTooOld payload carrying `minVersion`; one that parses above
`maxVersion` is answered 501 with a VersionTooNew payload carrying
`maxVersion`. -/
theorem version_error_statuses (minVersion maxVersion : Int) (req : Headers)
    (st : RespState) (d : HandlerDetails)
    (hpresent : getHeader req HeaderSpirentApiVersion ≠ "")
    (hst : st.written = false) :
    (atoi (getHeader req HeaderSpirentApiVersion) = none →
        (versionServeHTTP minVersion maxVersion req st d).1.status = 400 ∧
        (versionServeHTTP minVersion maxVersion req st d).1.body
          = some { code := Ecode.apiVersionInvalid } ∧
        (versionServeHTTP minVersion maxVersion req st d).1.written = true) ∧
    (∀ i : Int, atoi (getHeader req HeaderSpirentApiVersion) = some i → i < 1 →
        (versionServeHTTP minVersion maxVersion req st d).1.status = 400 ∧
        (versionServeHTTP minVersion maxVersion req st d).1.body
          = some { code := Ecode.apiVersionInvalid } ∧
        (versionServeHTTP minVersion maxVersion req st d).1.written = true) ∧
    (∀ i : Int, atoi (getHeader req HeaderSpirentApiVersion) = some i → 1 ≤ i →
        i < minVersion →
        (versionServeHTTP minVersion maxVersion req st d).1.status = 410 ∧
        (versionServeHTTP minVersion maxVersion req st d).1.body
          = some { code := Ecode.apiVersionTooOld, args := [minVersion] } ∧
        (versionServeHTTP minVersion maxVersion req st d).1.written = true) ∧
    (∀ i : Int, atoi (getHeader req HeaderSpirentApiVersion) = some i → 1 ≤ i →
        minVersion ≤ i → maxVersion < i →
        (versionServeHTTP minVersion maxVersion req st d).1.status = 501 ∧
        (versionServeHTTP minVersion maxVersion req st d).1.body
          = some { code := Ecode.apiVersionTooNew, args := [maxVersion] } ∧
        (versionServeHTTP minVersion maxVersion req st d).1.written = true) := by
  refine ⟨?_, ?_, ?_, ?_⟩
  · intro hn
    simp [versionServeHTTP, hpresent, hn, WriteResponse, hst]
  · intro i hi hlt
    simp [versionServeHTTP, hpresent, hi, hlt, WriteResponse, hst]
  · intro i hi h1 hmin
    simp [versionServeHTTP, hpresent, hi, not_lt.mpr h1, hmin, WriteResponse, hst]
  · intro i hi h1 hge hmax
    simp [versionServeHTTP, hpresent, hi, not_lt.mpr h1, not_lt.mpr hge, hmax,
      WriteResponse, hst]

/-- Claim C4 witness: with bounds (2, 42) a requested version "1" is
answered 410 with a VersionTooOld payload carrying the minimum 2. -/
theorem version_error_statuses_witness :
    (versionServeHTTP 2 42 [(HeaderSpirentApiVersion, "1")] initResp
        ({} : HandlerDetails)).1.status = 410 ∧
    (versionServeHTTP 2 42 [(HeaderSpirentApiVersion, "1")] initResp
        ({} : HandlerDetails)).1.body
      = some { code := Ecode.apiVersionTooOld, args := [2] } ∧
    (versionServeHTTP 2 42 [(HeaderSpirentApiVersion, "1")] initResp
        ({} : HandlerDetails)).1.written = true :=
  (version_error_statuses 2 42 [(HeaderSpirentApiVersion, "1")] initResp {}
      (by decide) rfl).2.2.1 1 (by decide) (by decide) (by decide)

/-- Claim C5: with `minVersion ≤ maxVersion`, a request with no version
header resolves to `maxVersion`: the resolved version is echoed in the
response version header, recorded in the handler details for downstream
routing, and the middleware writes no response. -/
theorem version_default_resolution (minVersion maxVersion : Int) (req : Headers)
    (st : RespState) (d : HandlerDetails)
    (hminmax : minVersion ≤ maxVersion)
    (habsent : getHeader req HeaderSpirentApiVersion = "")
    (hnohdr : hasHeader st.headers HeaderSpirentApiVersion = false) :
    getHeader (versionServeHTTP minVersion maxVersion req st d).1.headers
        HeaderSpirentApiVersion = toString maxVersion ∧
    (versionServeHTTP minVersion maxVersion req st d).2.apiVersion = maxVersion ∧
    (versionServeHTTP minVersion maxVersion req st d).1.written = st.written ∧
    (versionServeHTTP minVersion maxVersion req st d).1.status = st.status := by
  have hnm : ¬ maxVersion < minVersion := not_lt.mpr hminmax
  refine ⟨?_, ?_, ?_, ?_⟩
  · simp only [versionServeHTTP, habsent, if_pos rfl]
    simp [hnm]
    exact getHeader_addHeader_absent _ _ _ hnohdr
  · simp [versionServeHTTP, habsent, hnm]
  · simp [versionServeHTTP, habsent, hnm]
  · simp [versionServeHTTP, habsent, hnm]

/-- Claim C5 witness: with bounds (1, 3) and no version header, version 3
is echoed in the response header and recorded in the handler details. -/
theorem version_default_resolution_witness :
    getHeader (versionServeHTTP 1 3 [] initResp ({} : HandlerDetails)).1.headers
        HeaderSpirentApiVersion = toString (3 : Int) ∧
    (versionServeHTTP 1 3 [] initResp ({} : HandlerDetails)).2.apiVersion = 3 :=
  ⟨(version_default_resolution 1 3 [] initResp {} (by decide) rfl rfl).1,
   (version_default_resolution 1 3 [] initResp {} (by decide) rfl rfl).2.1⟩

theorem runHandlers_stops (pre : List Mw) (h : Mw) (post : List Mw) (sd : ReqState)
    (hpre : (runHandlers pre sd).1.written = false)
    (hwrite : (h (runHandlers pre sd)).1.written = true) :
    runHandlers (pre ++ h :: post) sd = h (runHandlers pre sd) := by
  induction pre generalizing sd with
  | nil =>
    simp only [runHandlers] at hpre hwrite ⊢
    simp [hwrite]
  | cons g rest ih =>
    by_cases hgw : (g sd).1.written = true
    · rw [show runHandlers (g :: rest) sd = g sd from by simp [runHandlers, hgw]] at hpre
      rw [hpre] at hgw
      exact absurd hgw (by decide)
    · have hgf : (g sd).1.written = false := by
        revert hgw
        cases (g sd).1.written <;> simp
      have e1 : runHandlers (g :: rest) sd = runHandlers rest (g sd) := by
        simp [runHandlers, hgf]
      have e2 : runHandlers (g :: (rest ++ h :: post)) sd
          = runHandlers (rest ++ h :: post) (g sd) := by
        simp [runHandlers, hgf]
      rw [e1] at hpre hwrite
      rw [List.cons_append, e2, e1]
      exact ih (g sd) hpre hwrite

/-- Claim C7: the dispatcher runs the installed middleware in order,
checking the written flag after each entry; as soon as an entry has
produced a written response, the span body equals the state right after
that entry — no later middleware entry runs and routing (global or
versioned) is skipped entirely, whatever they are. -/
theorem middleware_preemption (pre : List Mw) (h : Mw) (post : List Mw)
    (globalRouter : RouterM) (apiRouters : Int → RouterM) (key : String)
    (sd : ReqState)
    (hpre : (runHandlers pre sd).1.written = false)
    (hwrite : (h (runHandlers pre sd)).1.written = true) :
    spanBody (pre ++ h :: post) globalRouter apiRouters key sd
      = h (runHandlers pre sd) := by
  unfold spanBody
  rw [runHandlers_stops pre h post sd hpre hwrite, if_pos hwrite]

/-- Middleware used by witnesses: answer the request with a 204 status. -/
def mwWrite204 : Mw := fun sd => (writeHeaderStatus sd.1 204, sd.2)

/-- Middleware used by witnesses: answer the request with a 500 status. -/
def mwWrite500 : Mw := fun sd => (writeHeaderStatus sd.1 500, sd.2)

/-- Router with no routes, used by witnesses. -/
def emptyRouter : RouterM := { routes := [] }

/-- Claim C7 witness: a first middleware that answers with 204 pre-empts a
second middleware and all routing. -/
theorem middleware_preemption_witness :
    spanBody [mwWrite204, mwWrite500] emptyRouter (fun _ => emptyRouter) "GET /x"
        (initResp, ({} : HandlerDetails))
      = mwWrite204 (runHandlers [] (initResp, ({} : HandlerDetails))) :=
  middleware_preemption [] mwWrite204 [mwWrite500] emptyRouter (fun _ => emptyRouter)
    "GET /x" (initResp, {}) rfl rfl

/-- Claim C6: when the middleware chain completes without a write, the
dispatcher first attempts a global-router match and serves it when found;
only when the global router has no match does it dispatch to the versioned
router selected by the handler details' resolved version; and a router
with no matching route answers 404 through the installed not-found
handler rather than falling through. -/
theorem routing_order (hs : List Mw) (globalRouter : RouterM)
    (apiRouters : Int → RouterM) (key : String) (sd : ReqState)
    (hnw : (runHandlers hs sd).1.written = false) :
    (∀ lr, lookupRoute globalRouter key = some lr →
        spanBody hs globalRouter apiRouters key sd
          = (lr (runHandlers hs sd).1, (runHandlers hs sd).2)) ∧
    (lookupRoute globalRouter key = none →
        spanBody hs globalRouter apiRouters key sd
          = (routerServeHTTP (apiRouters (runHandlers hs sd).2.apiVersion) key
               (runHandlers hs sd).1,
             (runHandlers hs sd).2)) ∧
    (∀ (r : RouterM) (st : RespState), lookupRoute r key = none →
        st.written = false →
        routerServeHTTP r key st = writeHeaderStatus st 404 ∧
        (routerServeHTTP r key st).status = 404 ∧
        (routerServeHTTP r key st).written = true) := by
  refine ⟨?_, ?_, ?_⟩
  · intro lr hlr
    simp [spanBody, hnw, hlr]
  · intro hnone
    simp [spanBody, hnw, hnone]
  · intro r st hnone hw
    refine ⟨by simp [routerServeHTTP, hnone, notFoundHandler], ?_, ?_⟩
    · simp [routerServeHTTP, hnone, notFoundHandler, writeHeaderStatus, hw]
    · simp [routerServeHTTP, hnone, notFoundHandler, writeHeaderStatus, hw]

/-- Claim C6 witness: with an empty middleware chain and no routes at all,
the dispatcher falls through to the versioned router and answers 404. -/
theorem routing_order_witness :
    spanBody [] emptyRouter (fun _ => emptyRouter) "GET /x"
        (initResp, ({} : HandlerDetails))
      = (writeHeaderStatus initResp 404, ({} : HandlerDetails)) := by
  have h := routing_order [] emptyRouter (fun _ => emptyRouter) "GET /x"
    (initResp, {}) rfl
  rw [h.2.1 rfl]
  rfl

/-- Claim C3: a panic in the span body carrying any value other than the
context-canceled error is recovered by the span's deferred finalizer: the
panic is logged at error level together with the captured stack trace,
exactly one structured internal-error response is written with status 500,
and the pooled response writer and handler details are both returned to
their pools. -/
theorem panic_containment (debugStacks : Bool) (debugStackSize : Nat)
    (capturedStack : String) (body : ReqState → BodyOutcome) (sd sd1 : ReqState)
    (v : PanicVal)
    (hbody : body sd = BodyOutcome.panicked v sd1)
    (hv : v ≠ PanicVal.contextCanceled)
    (hw : sd1.1.written = false) (hwc : sd1.1.writeCount = 0) :
    (serveSpan debugStacks debugStackSize capturedStack body sd).resp.written = true ∧
    (serveSpan debugStacks debugStackSize capturedStack body sd).resp.status = 500 ∧
    (serveSpan debugStacks debugStackSize capturedStack body sd).resp.writeCount = 1 ∧
    (∃ e, (serveSpan debugStacks debugStackSize capturedStack body sd).resp.body = some e ∧
        e.code = Ecode.internal) ∧
    (∃ entry ∈ (serveSpan debugStacks debugStackSize capturedStack body sd).log,
        entry.errorLevel = true ∧ entry.stackField = capturedStack ∧ entry.msg = v.msg) ∧
    (serveSpan debugStacks debugStackSize capturedStack body sd).resPooled = true ∧
    (serveSpan debugStacks debugStackSize capturedStack body sd).dPooled = true := by
  simp only [serveSpan, hbody]
  simp only [if_neg hv]
  refine ⟨?_, ?_, ?_, ?_, ?_, by trivial, by trivial⟩
  · simp [WriteResponse, hw]
  · simp [WriteResponse, hw]
  · simp [WriteResponse, hw, hwc]
  · cases debugStacks
    · exact ⟨{ code := Ecode.internal, msg := v.msg }, by simp [WriteResponse, hw], rfl⟩
    · exact ⟨{ code := Ecode.internal, msg := v.msg, stack := (if debugStackSize < capturedStack.length then truncateStack capturedStack debugStackSize else capturedStack) }, by simp [WriteResponse, hw], rfl⟩
  · exact ⟨{ msg := v.msg, stackField := capturedStack, errorLevel := true },
      by simp, rfl, rfl, rfl⟩

/-- Claim C3 witness: a handler that panics with a non-canceled value on an
unwritten response yields a single 500 internal-error response, an
error-level log record carrying the stack, and both pool releases. -/
theorem panic_containment_witness :
    (serveSpan false 0 "stack-trace"
        (fun _ => BodyOutcome.panicked (PanicVal.other "boom") (initResp, {}))
        (initResp, ({} : HandlerDetails))).resp.written = true ∧
    (serveSpan false 0 "stack-trace"
        (fun _ => BodyOutcome.panicked (PanicVal.other "boom") (initResp, {}))
        (initResp, ({} : HandlerDetails))).resp.status = 500 ∧
    (serveSpan false 0 "stack-trace"
        (fun _ => BodyOutcome.panicked (PanicVal.other "boom") (initResp, {}))
        (initResp, ({} : HandlerDetails))).resp.writeCount = 1 ∧
    (∃ e, (serveSpan false 0 "stack-trace"
        (fun _ => BodyOutcome.panicked (PanicVal.other "boom") (initResp, {}))
        (initResp, ({} : HandlerDetails))).resp.body = some e ∧
        e.code = Ecode.internal) ∧
    (∃ entry ∈ (serveSpan false 0 "stack-trace"
        (fun _ => BodyOutcome.panicked (PanicVal.other "boom") (initResp, {}))
        (initResp, ({} : HandlerDetails))).log,
        entry.errorLevel = true ∧ entry.stackField = "stack-trace" ∧
        entry.msg = (PanicVal.other "boom").msg) ∧
    (serveSpan false 0 "stack-trace"
        (fun _ => BodyOutcome.panicked (PanicVal.other "boom") (initResp, {}))
        (initResp, ({} : HandlerDetails))).resPooled = true ∧
    (serveSpan false 0 "stack-trace"
        (fun _ => BodyOutcome.panicked (PanicVal.other "boom") (initResp, {}))
        (initResp, ({} : HandlerDetails))).dPooled = true :=
  panic_containment false 0 "stack-trace"
    (fun _ => BodyOutcome.panicked (PanicVal.other "boom") (initResp, {}))
    (initResp, {}) (initResp, {}) (PanicVal.other "boom") rfl (by decide) rfl rfl

/-- Claim C8 (counterexample): for the inbound correlation header
"99999999999999999999:1" — whose two components are the decimal numerals
99999999999999999999 and 1, both positive — the dispatcher neither reuses
those ids nor generates a fresh one (42 here): `strconv.ParseInt`
saturates the overflowing component to 2^63 − 1 and the code, ignoring
the parse error, continues the trace under that saturated id. -/
theorem requestId_overflow_counterexample :
    (resolveRequestId "99999999999999999999:1" 42).1 = 9223372036854775807 ∧
    (resolveRequestId "99999999999999999999:1" 42).2 = true ∧
    decimalValue? "99999999999999999999" = some 99999999999999999999 ∧
    (0 : Int) < 99999999999999999999 ∧
    decimalValue? "1" = some 1 ∧
    (9223372036854775807 : Int) ≠ 99999999999999999999 ∧
    (9223372036854775807 : Int) ≠ 42 := by
  decide

theorem getHeader_setHeader (hs : Headers) (k v : String) :
    getHeader (setHeader hs k v) k = v := by
  simp [setHeader, getHeader]

/-- Claim C8 (amended): if the inbound correlation header has the form
"traceId:parentId" and both components are parsed to positive values by
Go's 64-bit decimal parse — which yields 0 on a syntax error and
saturates to the 64-bit bound on a range error — the parsed ids are
reused to continue the existing trace; otherwise a fresh trace id is
generated; and in both cases the resolved trace id is set on the response
correlation header, formatted as its decimal string, by the prelude that
runs before the traced span (hence before any middleware or routing). -/
theorem requestId_resolution (req : Headers) (freshId : Int) (st : RespState)
    (a b : String) :
    (getHeader req HeaderRequestId ≠ "" →
        splitColon (getHeader req HeaderRequestId) = [a, b] →
        0 < parseInt64 a → 0 < parseInt64 b →
        resolveRequestId (getHeader req HeaderRequestId) freshId
          = (parseInt64 a, true)) ∧
    ((splitColon (getHeader req HeaderRequestId)).length ≠ 2 →
        resolveRequestId (getHeader req HeaderRequestId) freshId = (freshId, false)) ∧
    (getHeader req HeaderRequestId ≠ "" →
        splitColon (getHeader req HeaderRequestId) = [a, b] →
        ¬(0 < parseInt64 a ∧ 0 < parseInt64 b) →
        resolveRequestId (getHeader req HeaderRequestId) freshId = (freshId, false)) ∧
    (getHeader (serveHTTPPrelude req freshId st).1.headers HeaderRequestId
        = toString (resolveRequestId (getHeader req HeaderRequestId) freshId).1) ∧
    (∀ (debugStacks : Bool) (debugStackSize : Nat) (capturedStack : String)
        (handlers : List Mw) (globalRouter : RouterM) (apiRouters : Int → RouterM)
        (key : String) (d : HandlerDetails),
        serveHTTPFull debugStacks debugStackSize capturedStack req freshId handlers
            globalRouter apiRouters key st d
          = serveSpan debugStacks debugStackSize capturedStack
              (fun sd => BodyOutcome.ok (spanBody handlers globalRouter apiRouters key sd))
              ((serveHTTPPrelude req freshId st).1, d)) := by
  refine ⟨?_, ?_, ?_, ?_, ?_⟩
  · intro hne hsplit ha hb
    simp [resolveRequestId, resolveTraceIds, hne, hsplit, ha, hb]
  · intro hlen
    unfold resolveRequestId resolveTraceIds
    by_cases hne : getHeader req HeaderRequestId = ""
    · simp [hne]
    · simp only [hne, if_neg, if_false]
      match hsp : splitColon (getHeader req HeaderRequestId) with
      | [] => simp
      | [x] => simp
      | [x, y] => rw [hsp] at hlen; simp at hlen
      | x :: y :: z :: t => simp
  · intro hne hsplit hnot
    simp [resolveRequestId, resolveTraceIds, hne, hsplit, hnot]
  · exact getHeader_setHeader _ _ _
  · intro debugStacks debugStackSize capturedStack handlers globalRouter apiRouters key d
    rfl

/-- Claim C8 witness: "123:45" continues the trace with id 123, a
non-numeric header gets the fresh id, and the prelude echoes the id. -/
theorem requestId_resolution_witness :
    resolveRequestId "123:45" 7 = (123, true) ∧
    resolveRequestId "abc" 7 = (7, false) ∧
    getHeader (serveHTTPPrelude [(HeaderRequestId, "123:45")] 7 initResp).1.headers
        HeaderRequestId = "123" :=
  ⟨(requestId_resolution [(HeaderRequestId, "123:45")] 7 initResp "123" "45").1
      (by decide) rfl (by decide) (by decide),
   (requestId_resolution [(HeaderRequestId, "abc")] 7 initResp "" "").2.1 (by decide),
   (requestId_resolution [(HeaderRequestId, "123:45")] 7 initResp "123" "45").2.2.2.1⟩

end Luddite
